import Mathlib

/-!
Verification development for the Shoutbase API client (`shoutbase.py`).

The Python source is shallowly embedded below.  External effects are
captured by an `Env` record of response functions:

* `quotePlus` models `urllib.parse.quote_plus` (URL escaping);
* `tagLookup` / `teamLookup` map a lookup URL to the `data` array of the
  JSON envelope the service returned (`none` models an envelope without a
  `data` key, on which the Python subscript raises `KeyError`);
* `mktime` models `int(time.mktime(time.strptime(d, '%Y-%m-%d')))`, the
  local-time epoch-second conversion (`none` models a `ValueError` from
  `strptime`);
* `fetch` maps the report URL to `response.text`;
* `parseTs` models `pd.to_datetime` with the fixed pattern
  `%Y-%m-%d %H:%M:%S +%f UTC` (`none` models a parse failure, which
  raises inside `format_report`).

A Python call that can either return normally or raise is embedded as a
`PyResult`; `run`, which in the source can also return an `Exception`
object as a *normal value*, gets the three-way `RunOutcome`.  Methods
that touch `self` take and return an explicit `ClientState`, and every
embedded method also returns the list of network requests it issued, in
order, so that call-sequencing claims can be stated.

CSV handling (`pd.read_csv`) is modelled for the service-shaped fragment
the spec describes: a header line equal to the standard column header and
comma-separated rows without quoting; decimal `durationHours` strings are
read into exact rationals where the claims need numbers.
-/

namespace Shoutbase

/-- Outcome of an embedded Python expression: a normal return value or a
raised exception (identified by its message). -/
inductive PyResult (α : Type) where
  | ret (a : α)
  | raised (msg : String)
deriving DecidableEq

/-- A timestamp parsed by `pd.to_datetime`: days since 1970-01-01
(epoch day 0 is a Thursday) and the second of the day. -/
structure Ts where
  day : Int
  sec : Nat
deriving DecidableEq

/-- One data row of the raw CSV, keyed by the service's original column
names. -/
structure Row where
  startAt : String
  endAt : String
  durationHours : String
  tagNames : String
  teamNames : String
  description : String
  creator : String
deriving DecidableEq

/-- One row of the formatted report table (timestamps parsed, creator
possibly truncated). -/
structure FRow where
  start_time : Ts
  end_time : Ts
  duration_hours : String
  tags : String
  teams : String
  description : String
  person : String
deriving DecidableEq

/-- The formatted report dataframe: column names (after optional
renaming) plus the data rows. -/
structure Table where
  colNames : List String
  rows : List FRow
deriving DecidableEq

/-- The mutable per-instance state of `ShoutbaseClient`: credentials plus
the single `report_url` / `report_data` slots (both `None` after
`__init__`). -/
structure ClientState where
  username : String
  password : String
  report_url : Option String
  report_data : Option String
deriving DecidableEq

/-- The `report_params` dict.  `team_name`, `start_date` and `end_date`
are the required keys; `tag_list` defaults to `[]` and `tag_filter_type`
to `None` via `.get`. -/
structure ReportParams where
  team_name : String
  start_date : String
  end_date : String
  tag_list : List String
  tag_filter_type : Option String
deriving DecidableEq

/-- One outbound HTTP GET, tagged by the `requests.get` call site that
issued it. -/
inductive NetCall where
  | getTagLookup (url : String)
  | getTeamLookup (url : String)
  | getReport (url : String)
deriving DecidableEq

/-- Result of `run`: the formatted table, an `Exception` object returned
as a normal value (the source does this for "Report not defined."), or a
raised exception. -/
inductive RunOutcome where
  | table (t : Table)
  | excValue (msg : String)
  | raised (msg : String)
deriving DecidableEq

/-- The external world: URL escaping, the service's responses, and the
library date conversions.  All are fixed functions, so every embedded
operation is deterministic. -/
structure Env where
  quotePlus : String → String
  tagLookup : String → Option (List String)
  teamLookup : String → Option (List String)
  mktime : String → Option Int
  fetch : String → String
  parseTs : String → Option Ts

/-- `self.hostname`, set in `__init__`. -/
def hostname : String := "https://api.shoutbase.com"

/-- Split a character list at every occurrence of `sep` (the list-level
worker for the string splits used by the CSV model and `split('@')`). -/
def splitListOn (sep : Char) : List Char → List (List Char)
  | [] => [[]]
  | c :: cs =>
    if c = sep then [] :: splitListOn sep cs
    else
      match splitListOn sep cs with
      | [] => [[c]]
      | g :: gs => (c :: g) :: gs

/-- Split a string at every occurrence of the character `sep`. -/
def splitOnChar (sep : Char) (s : String) : List String :=
  (splitListOn sep s.data).map String.mk

/-- `",".join(...)` / `"".join`-style joining with a separator. -/
def joinWith (sep : String) : List String → String
  | [] => ""
  | [x] => x
  | x :: xs => x ++ sep ++ joinWith sep xs

/-- Map a fallible function over a list, failing on the first failure
(the `Option`-monad `mapM`, written out structurally). -/
def mapMOpt {A B : Type} (f : A -> Option B) : List A -> Option (List B)
  | [] => some []
  | a :: l =>
    match f a with
    | none => none
    | some b =>
      match mapMOpt f l with
      | none => none
      | some bs => some (b :: bs)

/-- `trunc_name = lambda x: x.split('@')[0]`: the substring of `x`
preceding the first `'@'` (all of `x` when there is none). -/
def trunc_name (x : String) : String :=
  (splitOnChar '@' x).headD x

/-- The `rename_map` dict of `format_report`; unmapped columns keep
their original names. -/
def rename_map (s : String) : String :=
  if s = "startAt" then "start_time"
  else if s = "endAt" then "end_time"
  else if s = "durationHours" then "duration_hours"
  else if s = "tagNames" then "tags"
  else if s = "teamNames" then "teams"
  else if s = "description" then "description"
  else if s = "creator" then "person"
  else s

/-- The service's CSV header line. -/
def stdHeader : String :=
  "startAt,endAt,durationHours,tagNames,teamNames,description,creator"

/-- The service's column names, in header order. -/
def stdHeaderList : List String :=
  ["startAt", "endAt", "durationHours", "tagNames", "teamNames",
   "description", "creator"]

/-- The lookup URL built by `_tagid_from_name`. -/
def tagLookupUrl (env : Env) (tag_name : String) : String :=
  hostname ++ "/v1/tags?name=" ++ env.quotePlus tag_name

/-- The lookup URL built by `_teamid_from_name`. -/
def teamLookupUrl (env : Env) (name : String) : String :=
  hostname ++ "/v1/teams?name=" ++ env.quotePlus name

/-- `_tagid_from_name`: one GET to the tag-lookup endpoint; the `id` of
the first element of `data`, or `""` when `data` is empty.  A response
without a `data` key raises `KeyError`. -/
def tagid_from_name (env : Env) (tag_name : String) :
    PyResult String × List NetCall :=
  match env.tagLookup (tagLookupUrl env tag_name) with
  | none =>
    (PyResult.raised "KeyError: data",
     [NetCall.getTagLookup (tagLookupUrl env tag_name)])
  | some [] => (PyResult.ret "", [NetCall.getTagLookup (tagLookupUrl env tag_name)])
  | some (id0 :: _) =>
    (PyResult.ret id0, [NetCall.getTagLookup (tagLookupUrl env tag_name)])

/-- `_teamid_from_name`: identical contract against the team-lookup
endpoint. -/
def teamid_from_name (env : Env) (name : String) :
    PyResult String × List NetCall :=
  match env.teamLookup (teamLookupUrl env name) with
  | none =>
    (PyResult.raised "KeyError: data",
     [NetCall.getTeamLookup (teamLookupUrl env name)])
  | some [] => (PyResult.ret "", [NetCall.getTeamLookup (teamLookupUrl env name)])
  | some (id0 :: _) =>
    (PyResult.ret id0, [NetCall.getTeamLookup (teamLookupUrl env name)])

/-- `list(map(self._tagid_from_name, tag_list))`: resolves each tag name
in input order; a raise aborts the remaining lookups. -/
def resolveTags (env : Env) : List String → PyResult (List String) × List NetCall
  | [] => (PyResult.ret [], [])
  | n :: ns =>
    match tagid_from_name env n with
    | (PyResult.raised m, calls) => (PyResult.raised m, calls)
    | (PyResult.ret tid, calls) =>
      match resolveTags env ns with
      | (PyResult.raised m, calls2) => (PyResult.raised m, calls ++ calls2)
      | (PyResult.ret tids, calls2) => (PyResult.ret (tid :: tids), calls ++ calls2)

/-- `to_epoch`: `str(int(time.mktime(time.strptime(date, '%Y-%m-%d'))) * 1000)`.
The parse-plus-local-time conversion is the environment's `mktime`. -/
def to_epoch (env : Env) (date : String) : PyResult String :=
  match env.mktime date with
  | none => PyResult.raised "ValueError: time data does not match format"
  | some epoch => PyResult.ret (toString (epoch * 1000))

/-- The fixed report-URL template of `compose_report_url`: the result of
`"".join` over the eleven template pieces. -/
def reportUrl (team_id startsBy endsBy tagIdsJoined tft : String) : String :=
  hostname ++ "/v1/export/timerecords?teamId=" ++ team_id ++
    "&closedOnly=false&startsBy=" ++ startsBy ++
    "&endsBy=" ++ endsBy ++
    "&tagIds=" ++ tagIdsJoined ++
    "&tagFilterType=" ++ tft

/-- `compose_report_url`: resolves the tag ids (first), then the team id,
converts both dates, joins the fixed URL template and stores it in
`self.report_url`.  When `tag_filter_type` is `None`, the final
`"".join` raises `TypeError`, because the joined list contains a
non-string element. -/
def compose_report_url (env : Env) (c : ClientState) (p : ReportParams) :
    PyResult String × ClientState × List NetCall :=
  match resolveTags env p.tag_list with
  | (PyResult.raised m, calls) => (PyResult.raised m, c, calls)
  | (PyResult.ret tag_ids, tagCalls) =>
    match teamid_from_name env p.team_name with
    | (PyResult.raised m, teamCalls) => (PyResult.raised m, c, tagCalls ++ teamCalls)
    | (PyResult.ret team_id, teamCalls) =>
      let calls := tagCalls ++ teamCalls
      match to_epoch env p.start_date with
      | PyResult.raised m => (PyResult.raised m, c, calls)
      | PyResult.ret startsBy =>
        match to_epoch env p.end_date with
        | PyResult.raised m => (PyResult.raised m, c, calls)
        | PyResult.ret endsBy =>
          match p.tag_filter_type with
          | none =>
            (PyResult.raised
              "TypeError: sequence item 10: expected str instance, NoneType found",
             c, calls)
          | some tft =>
            let url := reportUrl team_id startsBy endsBy (joinWith "," tag_ids) tft
            (PyResult.ret url,
             { c with report_url := some url }, calls)

/-- One line of the CSV body, split at commas into the seven standard
fields (the service emits unquoted fields). -/
def parseLine (line : String) : Option Row :=
  match splitOnChar ',' line with
  | [a, b, cc, d, e, f, g] => some ⟨a, b, cc, d, e, f, g⟩
  | _ => none

/-- `pd.read_csv(StringIO(text))` on the service-shaped fragment: the
first line must be the standard header, blank lines are skipped
(pandas default `skip_blank_lines`), each remaining line yields one row. -/
def read_csv (text : String) : Option (List Row) :=
  match splitOnChar '\n' text with
  | [] => none
  | h :: rest =>
    if h = stdHeader then
      mapMOpt parseLine (rest.filter (fun l => l ≠ ""))
    else none

/-- One row of the `format_report` body: both timestamps must parse
under the fixed pattern (`pd.to_datetime` raises otherwise); the creator
is truncated when `short_usernames` is set. -/
def format_row (env : Env) (short_usernames : Bool) (r : Row) : Option FRow :=
  match env.parseTs r.startAt, env.parseTs r.endAt with
  | some st, some et =>
    some ⟨st, et, r.durationHours, r.tagNames, r.teamNames, r.description,
      if short_usernames then trunc_name r.creator else r.creator⟩
  | _, _ => none

/-- The value computed by `format_report`: raises on falsy
`report_data` (`None` or `""`), parses the CSV, converts the timestamp
columns, truncates creators, renames columns. -/
def format_report_result (env : Env) (c : ClientState)
    (pythonic_colnames short_usernames : Bool) : PyResult Table :=
  match c.report_data with
  | none => PyResult.raised "Report has not yet been run."
  | some text =>
    if text = "" then PyResult.raised "Report has not yet been run."
    else
      match read_csv text with
      | none => PyResult.raised "KeyError: standard report columns missing"
      | some rows =>
        match mapMOpt (format_row env short_usernames) rows with
        | none => PyResult.raised "ValueError: time data does not match format"
        | some frows =>
          PyResult.ret
            ⟨if pythonic_colnames then stdHeaderList.map rename_map
              else stdHeaderList, frows⟩

/-- `format_report` as a method: it reads but never assigns `self`, so
the client state comes back unchanged. -/
def format_report (env : Env) (c : ClientState)
    (pythonic_colnames short_usernames : Bool) :
    PyResult Table × ClientState :=
  (format_report_result env c pythonic_colnames short_usernames, c)

/-- The tail of `run` after the optional compose: return the
`Exception` *value* when no URL is set, otherwise GET the report URL,
store `response.text` in `report_data` and format with default flags. -/
def runFetch (env : Env) (c : ClientState) (calls : List NetCall) :
    RunOutcome × ClientState × List NetCall :=
  match c.report_url with
  | none => (RunOutcome.excValue "Report not defined.", c, calls)
  | some url =>
    let c2 : ClientState := { c with report_data := some (env.fetch url) }
    (match format_report_result env c2 true true with
     | PyResult.ret t => RunOutcome.table t
     | PyResult.raised m => RunOutcome.raised m,
     c2, calls ++ [NetCall.getReport url])

/-- `run(report_params=None)`: compose first when params are given (a
raise there propagates), then fetch and format. -/
def run (env : Env) (c : ClientState) (report_params : Option ReportParams) :
    RunOutcome × ClientState × List NetCall :=
  match report_params with
  | none => runFetch env c []
  | some p =>
    match compose_report_url env c p with
    | (PyResult.raised m, c2, calls) => (RunOutcome.raised m, c2, calls)
    | (PyResult.ret _, c2, calls) => runFetch env c2 calls

/-- Parse a non-empty digit string into a natural number. -/
def parseDigits : List Char → Option Nat
  | [] => none
  | cs =>
    cs.foldl (fun acc? c =>
      match acc? with
      | none => none
      | some acc => if c.isDigit then some (acc * 10 + (c.toNat - 48)) else none)
      (some 0)

/-- Unsigned decimal digits, with an optional fraction part, read as an
exact rational. -/
def parseRatCore (cs : List Char) : Option Rat :=
  match splitListOn '.' cs with
  | [a] => (parseDigits a).map (fun n => mkRat (Int.ofNat n) 1)
  | [a, b] =>
    match parseDigits a, parseDigits b with
    | some n, some f =>
      some (mkRat (Int.ofNat (n * 10 ^ b.length + f)) (10 ^ b.length))
    | _, _ => none
  | _ => none

/-- Read a decimal string (optional sign, optional fraction part) into
an exact rational.  This is the numeric reading `pd.read_csv` gives the
`durationHours` column on the decimal fragment the claims quantify over;
a string outside this fragment is treated as non-numeric. -/
def parseRat (s : String) : Option Rat :=
  match s.data with
  | [] => none
  | c :: rest =>
    if c = '-' then (parseRatCore rest).map (fun x => -x)
    else parseRatCore (c :: rest)

/-- Exact rational addition, written out through `mkRat` so that the
aggregation results are computable by evaluation. -/
def ratAdd (a b : Rat) : Rat :=
  mkRat (a.num * (b.den : Int) + b.num * (a.den : Int)) (a.den * b.den)

/-- Sum of a list of exact rationals. -/
def ratSum : List Rat → Rat
  | [] => 0
  | x :: xs => ratAdd x (ratSum xs)

/-- A one-column aggregate dataframe: the name of its index plus
`(group key, summed duration_hours)` rows. -/
structure Pivot where
  indexName : String
  rows : List (String × Rat)
deriving DecidableEq

/-- Insert into a string list kept in ascending order (pandas group keys
come out sorted). -/
def insertSortedStr (x : String) : List String → List String
  | [] => [x]
  | y :: ys => if x ≤ y then x :: y :: ys else y :: insertSortedStr x ys

/-- Sort a list of strings ascending by insertion. -/
def sortStr : List String → List String
  | [] => []
  | x :: xs => insertSortedStr x (sortStr xs)

/-- `pivot_table(values='duration_hours', aggfunc='sum', index=key)`:
requires the duration column to be numeric (otherwise pandas has no
numeric values to aggregate and raises), then sums per key over the
sorted distinct keys. -/
def pivotSum (key : FRow → String) (rows : List FRow) :
    PyResult (List (String × Rat)) :=
  match mapMOpt (fun r => parseRat r.duration_hours) rows with
  | none => PyResult.raised "DataError: no numeric types to aggregate"
  | some ds =>
    let pairs := (rows.map key).zip ds
    PyResult.ret
      ((sortStr (pairs.map Prod.fst).dedup).map
        (fun k => (k, ratSum ((pairs.filter (fun q => q.1 == k)).map Prod.snd))))

/-- The smallest epoch day on or after `d` that is a Monday (epoch day 0,
1970-01-01, was a Thursday, so Mondays are the days `≡ 4 [ZMOD 7]`).
This is the `W-MON` bin label pandas assigns to a timestamp on day `d`:
weekly bins cover seven calendar days and are labelled by the Monday
that ends them (right-closed, right-labelled). -/
def mondayOnOrAfter (d : Int) : Int :=
  d + (4 - d) % 7

/-- The run of weekly bin labels `resample` generates: every seventh day
from `first` to `last` inclusive (empty bins are materialised). -/
def weekLabels (first last : Int) : List Int :=
  (List.range (((last - first) / 7).toNat + 1)).map
    (fun i => first + 7 * (i : Int))

/-- Sum of the durations falling in the weekly bin labelled `label`. -/
def bucketTotal (pairs : List (Int × Rat)) (label : Int) : Rat :=
  ratSum ((pairs.filter (fun q => mondayOnOrAfter q.1 == label)).map Prod.snd)

/-- `resample('W-MON').sum()` on `(start-day, duration)` pairs: one
output row per weekly label between the first and last bin, each with
the summed durations of its bin (zero for empty bins). -/
def resampleWeekSum (pairs : List (Int × Rat)) : List (Int × Rat) :=
  match pairs with
  | [] => []
  | q :: qs =>
    let ds := (q :: qs).map Prod.fst
    let first := mondayOnOrAfter (ds.foldl min q.1)
    let last := mondayOnOrAfter (ds.foldl max q.1)
    (weekLabels first last).map (fun label => (label, bucketTotal (q :: qs) label))

/-- Weekly summary dataframe: index name plus `(bin label, sum)` rows. -/
structure Weekly where
  indexName : String
  rows : List (Int × Rat)
deriving DecidableEq

/-- The resample step of `summary_by_week` on the formatted rows: index
by `start_time`, bin weekly, sum the numeric column. -/
def resampleWeeklySum (rows : List FRow) : PyResult (List (Int × Rat)) :=
  match mapMOpt (fun r => parseRat r.duration_hours) rows with
  | none => PyResult.raised "DataError: no numeric types to aggregate"
  | some ds =>
    PyResult.ret (resampleWeekSum ((rows.map (fun r => r.start_time.day)).zip ds))

/-- `ShoutbaseReport.hours_by_team`: run the report, pivot the formatted
table by `teams` summing `duration_hours`.  When `run` hands back the
`Exception` value instead of a dataframe, the attribute access on it
raises. -/
def hours_by_team (env : Env) (c : ClientState) (p : ReportParams) :
    PyResult Pivot × ClientState × List NetCall :=
  match run env c (some p) with
  | (RunOutcome.table t, c2, calls) =>
    (match pivotSum (fun r => r.teams) t.rows with
     | PyResult.ret rs => PyResult.ret ⟨"teams", rs⟩
     | PyResult.raised m => PyResult.raised m, c2, calls)
  | (RunOutcome.excValue _, c2, calls) =>
    (PyResult.raised "AttributeError: Exception object has no attribute pivot_table",
     c2, calls)
  | (RunOutcome.raised m, c2, calls) => (PyResult.raised m, c2, calls)

/-- `ShoutbaseReport.hours_by_project`: calls `hours_by_team`, then
renames the result's index to `project`. -/
def hours_by_project (env : Env) (c : ClientState) (p : ReportParams) :
    PyResult Pivot × ClientState × List NetCall :=
  match hours_by_team env c p with
  | (PyResult.ret pv, c2, calls) =>
    (PyResult.ret { pv with indexName := "project" }, c2, calls)
  | (PyResult.raised m, c2, calls) => (PyResult.raised m, c2, calls)

/-- Modelled from the spec: `hours_by_project` is `hours_by_team` with
the result's grouping label renamed to "project" — identical data,
different label.  Stated as a separate definition so the source method
can be proved equal to it. -/
def hours_by_project_spec (env : Env) (c : ClientState) (p : ReportParams) :
    PyResult Pivot × ClientState × List NetCall :=
  match hours_by_team env c p with
  | (PyResult.ret pv, c2, calls) =>
    (PyResult.ret ⟨"project", pv.rows⟩, c2, calls)
  | (PyResult.raised m, c2, calls) => (PyResult.raised m, c2, calls)

/-- `ShoutbaseReport.summary_by_week`: run the report, index by
`start_time`, resample into `W-MON` weekly bins, sum; the index of the
result is renamed `week_starting_date`. -/
def summary_by_week (env : Env) (c : ClientState) (p : ReportParams) :
    PyResult Weekly × ClientState × List NetCall :=
  match run env c (some p) with
  | (RunOutcome.table t, c2, calls) =>
    (match resampleWeeklySum t.rows with
     | PyResult.ret rs => PyResult.ret ⟨"week_starting_date", rs⟩
     | PyResult.raised m => PyResult.raised m, c2, calls)
  | (RunOutcome.excValue _, c2, calls) =>
    (PyResult.raised "AttributeError: Exception object has no attribute set_index",
     c2, calls)
  | (RunOutcome.raised m, c2, calls) => (PyResult.raised m, c2, calls)

/-- `ShoutbaseReport.last_report_date`: the body is `pass`, so the call
performs no network requests, changes nothing, raises nothing and
returns Python `None` (embedded as `none`). -/
def last_report_date (env : Env) (c : ClientState) (p : ReportParams) :
    Option Table × ClientState × List NetCall :=
  (none, c, [])

/-- Is this request the team-lookup GET? -/
def isTeamCall : NetCall → Bool
  | NetCall.getTeamLookup _ => true
  | _ => false

/-- Is this request a tag-lookup GET? -/
def isTagCall : NetCall → Bool
  | NetCall.getTagLookup _ => true
  | _ => false

/-- The ordering asserted by the spec: every team-lookup request
precedes every tag-lookup request in the trace. -/
def teamPrecedesTags (calls : List NetCall) : Prop :=
  ∀ i j : Fin calls.length,
    isTeamCall (calls.get i) → isTagCall (calls.get j) → (i : Nat) < (j : Nat)

instance (calls : List NetCall) : Decidable (teamPrecedesTags calls) := by
  unfold teamPrecedesTags
  infer_instance

/-- The rows of a successful `summary_by_week` result, `none` on a
raise. -/
def weeklyResultRows (env : Env) (c : ClientState) (p : ReportParams) :
    Option (List (Int × Rat)) :=
  match summary_by_week env c p with
  | (PyResult.ret w, _, _) => some w.rows
  | _ => none

/-- The distinct weekly bin labels of the formatted rows produced by a
successful `run`, `none` otherwise. -/
def tableBuckets (env : Env) (c : ClientState) (p : ReportParams) :
    Option (List Int) :=
  match run env c (some p) with
  | (RunOutcome.table t, _, _) =>
    some ((t.rows.map (fun r => mondayOnOrAfter r.start_time.day)).dedup)
  | _ => none

/-- The formatted row `format_report` is expected to produce from a raw
row under the default flags (timestamps parsed, creator truncated); the
`getD` defaults are never reached when both timestamps parse. -/
def expected_format (env : Env) (r : Row) : FRow :=
  ⟨(env.parseTs r.startAt).getD ⟨0, 0⟩, (env.parseTs r.endAt).getD ⟨0, 0⟩,
   r.durationHours, r.tagNames, r.teamNames, r.description, trunc_name r.creator⟩

/-- A freshly constructed client (both mutable slots `None`). -/
def c0 : ClientState := ⟨"user", "pass", none, none⟩

/-- Concrete environment for the C2 counterexample: the team name
resolves, both dates convert, yet `tag_filter_type` will be absent. -/
def env2c : Env :=
  ⟨fun s => s, fun _ => some [], fun _ => some ["T1"],
   fun d => if d = "2020-01-01" then some 1577836800
     else if d = "2020-01-31" then some 1580428800 else none,
   fun _ => "", fun _ => none⟩

/-- Valid report parameters (required keys present, team resolvable,
no tags) that omit the optional `tag_filter_type`. -/
def p2c : ReportParams := ⟨"teamA", "2020-01-01", "2020-01-31", [], none⟩

/-- Concrete environment for the C2 witness (same service data, used
with `tag_filter_type` supplied). -/
def env2w : Env :=
  ⟨fun s => s, fun _ => some [], fun _ => some ["T1"],
   fun d => if d = "2020-01-01" then some 1577836800
     else if d = "2020-01-31" then some 1580428800 else none,
   fun _ => "", fun _ => none⟩

/-- The C2 witness parameters: as `p2c` but with `tag_filter_type`. -/
def p2w : ReportParams := ⟨"teamA", "2020-01-01", "2020-01-31", [], some "any"⟩

/-- Concrete environment for the C3 witness: both lookup endpoints
answer with an empty `data` array. -/
def env3 : Env :=
  ⟨fun s => s, fun _ => some [], fun _ => some [],
   fun _ => none, fun _ => "", fun _ => none⟩

/-- Raw CSV text for the C4 witness: the standard header and one data
row whose creator is an email-like string. -/
def text4 : String :=
  stdHeader ++
  "\n2020-01-06 09:00:00 +0000 UTC,2020-01-06 10:30:00 +0000 UTC,1.5,tagA,teamA,planning,alice@example.com"

/-- The parsed form of `text4`. -/
def rows4 : List Row :=
  [⟨"2020-01-06 09:00:00 +0000 UTC", "2020-01-06 10:30:00 +0000 UTC",
    "1.5", "tagA", "teamA", "planning", "alice@example.com"⟩]

/-- Concrete environment for the C4 witness: the two timestamps of
`text4` parse under the fixed pattern. -/
def env4 : Env :=
  ⟨fun s => s, fun _ => some [], fun _ => some [],
   fun _ => none, fun _ => "",
   fun s =>
     if s = "2020-01-06 09:00:00 +0000 UTC" then some ⟨18267, 32400⟩
     else if s = "2020-01-06 10:30:00 +0000 UTC" then some ⟨18267, 37800⟩
     else none⟩

/-- A client whose `report_data` slot holds `text4`. -/
def c4 : ClientState := ⟨"user", "pass", none, some text4⟩

/-- Raw CSV body for the C6 counterexample: two rows four weeks apart
(weekly buckets 18267 = 2020-01-06 and 18295 = 2020-02-03). -/
def csv6c : String :=
  stdHeader ++
  "\n2020-01-01 09:00:00 +0000 UTC,2020-01-01 10:00:00 +0000 UTC,1.5,tagA,teamA,work,alice@example.com" ++
  "\n2020-01-29 09:00:00 +0000 UTC,2020-01-29 10:00:00 +0000 UTC,2.5,tagA,teamA,work,bob@example.com"

/-- Concrete environment for the C6 counterexample. -/
def env6c : Env :=
  ⟨fun s => s, fun _ => some [], fun _ => some ["T1"],
   fun _ => some 0, fun _ => csv6c,
   fun s =>
     if s = "2020-01-01 09:00:00 +0000 UTC" then some ⟨18262, 32400⟩
     else if s = "2020-01-01 10:00:00 +0000 UTC" then some ⟨18262, 36000⟩
     else if s = "2020-01-29 09:00:00 +0000 UTC" then some ⟨18290, 32400⟩
     else if s = "2020-01-29 10:00:00 +0000 UTC" then some ⟨18290, 36000⟩
     else none⟩

/-- Report parameters used by the C6 theorems. -/
def p6 : ReportParams := ⟨"teamA", "2020-01-01", "2020-01-31", [], some "any"⟩

/-- Raw CSV body for the C6 witness: two rows one week apart (adjacent
weekly buckets 18267 = 2020-01-06 and 18274 = 2020-01-13). -/
def csv6w : String :=
  stdHeader ++
  "\n2020-01-01 09:00:00 +0000 UTC,2020-01-01 10:00:00 +0000 UTC,1.5,tagA,teamA,work,alice@example.com" ++
  "\n2020-01-08 09:00:00 +0000 UTC,2020-01-08 10:00:00 +0000 UTC,2.5,tagA,teamA,work,bob@example.com"

/-- Concrete environment for the C6 witness. -/
def env6w : Env :=
  ⟨fun s => s, fun _ => some [], fun _ => some ["T1"],
   fun _ => some 0, fun _ => csv6w,
   fun s =>
     if s = "2020-01-01 09:00:00 +0000 UTC" then some ⟨18262, 32400⟩
     else if s = "2020-01-01 10:00:00 +0000 UTC" then some ⟨18262, 36000⟩
     else if s = "2020-01-08 09:00:00 +0000 UTC" then some ⟨18269, 32400⟩
     else if s = "2020-01-08 10:00:00 +0000 UTC" then some ⟨18269, 36000⟩
     else none⟩

/-- The formatted table `run` produces in the C6 witness environment. -/
def t6w : Table :=
  ⟨["start_time", "end_time", "duration_hours", "tags", "teams",
    "description", "person"],
   [⟨⟨18262, 32400⟩, ⟨18262, 36000⟩, "1.5", "tagA", "teamA", "work", "alice"⟩,
    ⟨⟨18269, 32400⟩, ⟨18269, 36000⟩, "2.5", "tagA", "teamA", "work", "bob"⟩]⟩

/-- The report URL composed in the C6 witness environment. -/
def url6w : String := reportUrl "T1" "0" "0" "" "any"

/-- The client state after the C6 witness run. -/
def c6w2 : ClientState := ⟨"user", "pass", some url6w, some csv6w⟩

/-- The network trace of the C6 witness run. -/
def calls6w : List NetCall :=
  [NetCall.getTeamLookup "https://api.shoutbase.com/v1/teams?name=teamA",
   NetCall.getReport url6w]

/-- The parsed duration column of the C6 witness table. -/
def ds6w : List Rat := [mkRat 3 2, mkRat 5 2]

/-- Concrete environment for the C9 counterexample: one tag, resolvable
team, everything succeeds up to the report fetch. -/
def env9c : Env :=
  ⟨fun s => s, fun _ => some ["G1"], fun _ => some ["T1"],
   fun _ => some 0, fun _ => "", fun _ => none⟩

/-- Parameters with a single tag name, for the C9 counterexample. -/
def p9c : ReportParams := ⟨"teamA", "2020-01-01", "2020-01-31", ["tagX"], some "any"⟩

/-- Concrete environment for the C9 witness. -/
def env9w : Env :=
  ⟨fun s => s, fun _ => some ["G1"], fun _ => some ["T1"],
   fun _ => some 0, fun _ => "", fun _ => none⟩

/-- Parameters with two tag names, for the C9 witness. -/
def p9w : ReportParams :=
  ⟨"teamA", "2020-01-01", "2020-01-31", ["tagX", "tagY"], some "any"⟩

/-- Concrete environment for the C10 witness: the report endpoint
answers with an empty body. -/
def env10 : Env :=
  ⟨fun s => s, fun _ => some [], fun _ => some ["T1"],
   fun _ => some 0, fun _ => "", fun _ => none⟩

/-- A client that already holds a composed report URL. -/
def c10 : ClientState := ⟨"user", "pass", some "https://api.shoutbase.com/v1/export/timerecords?teamId=T1&closedOnly=false&startsBy=0&endsBy=0&tagIds=&tagFilterType=any", none⟩

lemma foldl_min_le_init (l : List Int) (a : Int) : l.foldl min a ≤ a := by
  induction l generalizing a with
  | nil => exact le_refl a
  | cons x xs ih => exact le_trans (ih (min a x)) (min_le_left a x)

lemma foldl_min_le_mem (l : List Int) (a x : Int) (hx : x ∈ l) :
    l.foldl min a ≤ x := by
  induction l generalizing a with
  | nil => cases hx
  | cons y ys ih =>
    rcases List.mem_cons.mp hx with h | h
    · subst h
      exact le_trans (foldl_min_le_init ys (min a x)) (min_le_right a x)
    · exact ih (min a y) h

lemma foldl_min_cases (l : List Int) (a : Int) :
    l.foldl min a = a ∨ l.foldl min a ∈ l := by
  induction l generalizing a with
  | nil => exact Or.inl rfl
  | cons y ys ih =>
    rcases ih (min a y) with h | h
    · rcases min_cases a y with ⟨he, _⟩ | ⟨he, _⟩
      · exact Or.inl (by rw [List.foldl_cons, h, he])
      · exact Or.inr (by rw [List.foldl_cons, h, he]; exact List.mem_cons_self y ys)
    · exact Or.inr (List.mem_cons_of_mem y h)

lemma foldl_max_init_le (l : List Int) (a : Int) : a ≤ l.foldl max a := by
  induction l generalizing a with
  | nil => exact le_refl a
  | cons x xs ih => exact le_trans (le_max_left a x) (ih (max a x))

lemma foldl_max_mem_le (l : List Int) (a x : Int) (hx : x ∈ l) :
    x ≤ l.foldl max a := by
  induction l generalizing a with
  | nil => cases hx
  | cons y ys ih =>
    rcases List.mem_cons.mp hx with h | h
    · subst h
      exact le_trans (le_max_right a x) (foldl_max_init_le ys (max a x))
    · exact ih (max a y) h

lemma foldl_max_cases (l : List Int) (a : Int) :
    l.foldl max a = a ∨ l.foldl max a ∈ l := by
  induction l generalizing a with
  | nil => exact Or.inl rfl
  | cons y ys ih =>
    rcases ih (max a y) with h | h
    · rcases max_cases a y with ⟨he, _⟩ | ⟨he, _⟩
      · exact Or.inl (by rw [List.foldl_cons, h, he])
      · exact Or.inr (by rw [List.foldl_cons, h, he]; exact List.mem_cons_self y ys)
    · exact Or.inr (List.mem_cons_of_mem y h)

lemma mondayOnOrAfter_mono {a b : Int} (h : a ≤ b) :
    mondayOnOrAfter a ≤ mondayOnOrAfter b := by
  unfold mondayOnOrAfter
  omega

lemma weekLabels_adjacent (m : Int) : weekLabels m (m + 7) = [m, m + 7] := by
  unfold weekLabels
  have h : m + 7 - m = 7 := by ring
  rw [h]
  have h2 : ((7 : Int) / 7).toNat + 1 = 2 := by decide
  rw [h2]
  have h3 : List.range 2 = [0, 1] := by decide
  rw [h3]
  simp

lemma resampleWeekSum_two (pairs : List (Int × Rat)) (m : Int)
    (hall : ∀ q ∈ pairs, mondayOnOrAfter q.1 = m ∨ mondayOnOrAfter q.1 = m + 7)
    (hm : ∃ q ∈ pairs, mondayOnOrAfter q.1 = m)
    (hm7 : ∃ q ∈ pairs, mondayOnOrAfter q.1 = m + 7) :
    resampleWeekSum pairs =
      [(m, bucketTotal pairs m), (m + 7, bucketTotal pairs (m + 7))] := by
  cases pairs with
  | nil =>
    rcases hm with ⟨q, hq, _⟩
    cases hq
  | cons q0 qs =>
    have hlo : mondayOnOrAfter (((q0 :: qs).map Prod.fst).foldl min q0.1) = m := by
      set lo := ((q0 :: qs).map Prod.fst).foldl min q0.1 with hlo_def
      have hmem : ∃ q ∈ q0 :: qs, q.1 = lo := by
        rcases foldl_min_cases ((q0 :: qs).map Prod.fst) q0.1 with h | h
        · exact ⟨q0, List.mem_cons_self q0 qs, h.symm⟩
        · rcases List.mem_map.mp h with ⟨q, hq, hq1⟩
          exact ⟨q, hq, hq1⟩
      rcases hmem with ⟨q, hq, hq1⟩
      have hchoice : mondayOnOrAfter lo = m ∨ mondayOnOrAfter lo = m + 7 := by
        rw [← hq1]; exact hall q hq
      rcases hm with ⟨qm, hqm, hqm_eq⟩
      have hle : lo ≤ qm.1 :=
        foldl_min_le_mem _ _ _ (List.mem_map_of_mem Prod.fst hqm)
      have : mondayOnOrAfter lo ≤ m := by
        calc mondayOnOrAfter lo ≤ mondayOnOrAfter qm.1 := mondayOnOrAfter_mono hle
        _ = m := hqm_eq
      rcases hchoice with h | h
      · exact h
      · omega
    have hhi : mondayOnOrAfter (((q0 :: qs).map Prod.fst).foldl max q0.1) = m + 7 := by
      set hi := ((q0 :: qs).map Prod.fst).foldl max q0.1 with hhi_def
      have hmem : ∃ q ∈ q0 :: qs, q.1 = hi := by
        rcases foldl_max_cases ((q0 :: qs).map Prod.fst) q0.1 with h | h
        · exact ⟨q0, List.mem_cons_self q0 qs, h.symm⟩
        · rcases List.mem_map.mp h with ⟨q, hq, hq1⟩
          exact ⟨q, hq, hq1⟩
      rcases hmem with ⟨q, hq, hq1⟩
      have hchoice : mondayOnOrAfter hi = m ∨ mondayOnOrAfter hi = m + 7 := by
        rw [← hq1]; exact hall q hq
      rcases hm7 with ⟨qm, hqm, hqm_eq⟩
      have hle : qm.1 ≤ hi :=
        foldl_max_mem_le _ _ _ (List.mem_map_of_mem Prod.fst hqm)
      have : m + 7 ≤ mondayOnOrAfter hi := by
        calc m + 7 = mondayOnOrAfter qm.1 := hqm_eq.symm
        _ ≤ mondayOnOrAfter hi := mondayOnOrAfter_mono hle
      rcases hchoice with h | h
      · omega
      · exact h
    show (weekLabels (mondayOnOrAfter (((q0 :: qs).map Prod.fst).foldl min q0.1))
        (mondayOnOrAfter (((q0 :: qs).map Prod.fst).foldl max q0.1))).map
        (fun label => (label, bucketTotal (q0 :: qs) label)) = _
    rw [hlo, hhi, weekLabels_adjacent]
    rfl

lemma resolveTags_ok (env : Env) (l : List String)
    (h : ∀ n ∈ l, (env.tagLookup (tagLookupUrl env n)).isSome = true) :
    ∃ ids, resolveTags env l =
      (PyResult.ret ids, l.map (fun n => NetCall.getTagLookup (tagLookupUrl env n))) := by
  induction l with
  | nil => exact ⟨[], rfl⟩
  | cons n ns ih =>
    have hn := h n (List.mem_cons_self n ns)
    rcases ih (fun x hx => h x (List.mem_cons_of_mem n hx)) with ⟨ids, hids⟩
    cases hv : env.tagLookup (tagLookupUrl env n) with
    | none => rw [hv] at hn; cases hn
    | some data =>
      cases data with
      | nil =>
        exact ⟨"" :: ids, by simp [resolveTags, tagid_from_name, hv, hids]⟩
      | cons id0 rest =>
        exact ⟨id0 :: ids, by simp [resolveTags, tagid_from_name, hv, hids]⟩

lemma read_csv_empty : read_csv "" = none := by decide

lemma mapM_format_row (env : Env) (rows : List Row)
    (hts : ∀ r ∈ rows,
      (env.parseTs r.startAt).isSome = true ∧ (env.parseTs r.endAt).isSome = true) :
    mapMOpt (format_row env true) rows = some (rows.map (expected_format env)) := by
  induction rows with
  | nil => rfl
  | cons r rs ih =>
    rcases hts r (List.mem_cons_self r rs) with ⟨h1, h2⟩
    rcases Option.isSome_iff_exists.mp h1 with ⟨st, hst⟩
    rcases Option.isSome_iff_exists.mp h2 with ⟨et, het⟩
    have hrest := ih (fun x hx => hts x (List.mem_cons_of_mem r hx))
    simp [mapMOpt, format_row, hst, het, hrest, expected_format]

/-- Claim C1 (code_bug evidence): on a fresh client, `run` with no
report parameters evaluates to the `Exception` object *returned as a
normal value* — the failure is not raised as an error, contradicting
the specified NotDefinedError behaviour. -/
theorem run_no_params_no_url_returns_exception_value (env : Env) (u pw : String) :
    run env ⟨u, pw, none, none⟩ none =
      (RunOutcome.excValue "Report not defined.", ⟨u, pw, none, none⟩, []) := rfl

/-- Claim C2 (amended): for valid report parameters with a resolvable
team name, an empty tag list, parseable dates *and a supplied
tag_filter_type*, `compose_report_url` returns the URL whose `startsBy`
and `endsBy` fields are the local-time epoch seconds multiplied by 1000
and rendered in decimal, and whose `tagIds` segment is empty. -/
theorem compose_report_url_epoch_ms (env : Env) (c : ClientState)
    (p : ReportParams) (tid : String) (trest : List String) (tft : String)
    (ss ee : Int)
    (hempty : p.tag_list = [])
    (htft : p.tag_filter_type = some tft)
    (hteam : env.teamLookup (teamLookupUrl env p.team_name) = some (tid :: trest))
    (hs : env.mktime p.start_date = some ss)
    (he : env.mktime p.end_date = some ee) :
    compose_report_url env c p =
      (PyResult.ret
        (reportUrl tid (toString (ss * 1000)) (toString (ee * 1000)) "" tft),
       { c with report_url := some (reportUrl tid (toString (ss * 1000)) (toString (ee * 1000)) "" tft) },
       [NetCall.getTeamLookup (teamLookupUrl env p.team_name)]) := by
  unfold compose_report_url
  rw [hempty]
  dsimp only [resolveTags]
  unfold teamid_from_name
  rw [hteam]
  dsimp only
  unfold to_epoch
  rw [hs]
  dsimp only
  rw [he]
  dsimp only
  rw [htft]
  simp [joinWith]

/-- Witness for C2: the amended theorem applied at a concrete
environment and parameter set. -/
theorem compose_report_url_epoch_ms_witness :
    compose_report_url env2w c0 p2w =
      (PyResult.ret
        (reportUrl "T1" (toString ((1577836800 : Int) * 1000))
          (toString ((1580428800 : Int) * 1000)) "" "any"),
       { c0 with report_url := some (reportUrl "T1" (toString ((1577836800 : Int) * 1000)) (toString ((1580428800 : Int) * 1000)) "" "any") },
       [NetCall.getTeamLookup (teamLookupUrl env2w "teamA")]) :=
  compose_report_url_epoch_ms env2w c0 p2w "T1" [] "any" 1577836800 1580428800
    rfl rfl (by decide) (by decide) (by decide)

/-- Counterexample for C2 as stated: with the same (valid, resolvable,
tag-free) parameters but the optional `tag_filter_type` omitted,
`compose_report_url` raises a `TypeError` from joining `None` instead
of returning any URL. -/
theorem compose_report_url_none_filter_raises :
    compose_report_url env2c c0 p2c =
      (PyResult.raised
        "TypeError: sequence item 10: expected str instance, NoneType found",
       c0,
       [NetCall.getTeamLookup "https://api.shoutbase.com/v1/teams?name=teamA"]) ∧
    env2c.teamLookup "https://api.shoutbase.com/v1/teams?name=teamA" = some ["T1"] ∧
    p2c.tag_list = [] ∧ p2c.tag_filter_type = none := by
  decide

/-- Claim C3: a lookup response whose `data` array is empty makes the
resolver return the empty string as the identifier, without raising. -/
theorem resolver_empty_data_returns_empty_string :
    (∀ (env : Env) (n : String), env.tagLookup (tagLookupUrl env n) = some [] →
      tagid_from_name env n =
        (PyResult.ret "", [NetCall.getTagLookup (tagLookupUrl env n)])) ∧
    (∀ (env : Env) (n : String), env.teamLookup (teamLookupUrl env n) = some [] →
      teamid_from_name env n =
        (PyResult.ret "", [NetCall.getTeamLookup (teamLookupUrl env n)])) := by
  constructor
  · intro env n h
    simp [tagid_from_name, h]
  · intro env n h
    simp [teamid_from_name, h]

/-- Witness for C3: both resolver halves applied at a concrete
environment whose lookups answer with empty `data`. -/
theorem resolver_empty_data_returns_empty_string_witness :
    tagid_from_name env3 "ghost" =
      (PyResult.ret "", [NetCall.getTagLookup (tagLookupUrl env3 "ghost")]) ∧
    teamid_from_name env3 "ghost" =
      (PyResult.ret "", [NetCall.getTeamLookup (teamLookupUrl env3 "ghost")]) :=
  ⟨resolver_empty_data_returns_empty_string.1 env3 "ghost" rfl,
   resolver_empty_data_returns_empty_string.2 env3 "ghost" rfl⟩

/-- Claim C4: on raw CSV text with the standard header and at least one
data row (timestamps parseable under the fixed pattern), `format_report`
with default flags returns the table with columns renamed to
`start_time, end_time, duration_hours, tags, teams, description, person`
and every `person` value equal to the part of the original `creator`
value preceding the first `'@'`. -/
theorem format_report_renames_and_truncates (env : Env) (c : ClientState)
    (text : String) (rows : List Row)
    (hdata : c.report_data = some text)
    (hcsv : read_csv text = some rows)
    (hne : rows ≠ [])
    (hts : ∀ r ∈ rows,
      (env.parseTs r.startAt).isSome = true ∧ (env.parseTs r.endAt).isSome = true) :
    format_report env c true true =
      (PyResult.ret
        ⟨["start_time", "end_time", "duration_hours", "tags", "teams",
          "description", "person"],
         rows.map (expected_format env)⟩, c) ∧
    (rows.map (expected_format env)).map (fun fr => fr.person) =
      rows.map (fun r => trunc_name r.creator) := by
  have htext : text ≠ "" := by
    intro h
    rw [h, read_csv_empty] at hcsv
    cases hcsv
  constructor
  · have hcols : stdHeaderList.map rename_map =
        ["start_time", "end_time", "duration_hours", "tags", "teams",
         "description", "person"] := by decide
    unfold format_report format_report_result
    rw [hdata]
    dsimp only
    rw [if_neg htext, hcsv]
    dsimp only
    rw [mapM_format_row env rows hts]
    dsimp only
    rw [hcols]
    rfl
  · simp [expected_format]

/-- Witness for C4: the theorem applied at a concrete one-row CSV with
an email-like creator. -/
theorem format_report_renames_and_truncates_witness :
    format_report env4 c4 true true =
      (PyResult.ret
        ⟨["start_time", "end_time", "duration_hours", "tags", "teams",
          "description", "person"],
         rows4.map (expected_format env4)⟩, c4) ∧
    (rows4.map (expected_format env4)).map (fun fr => fr.person) =
      rows4.map (fun r => trunc_name r.creator) :=
  format_report_renames_and_truncates env4 c4 text4 rows4 rfl (by decide)
    (by decide) (by decide)

/-- Claim C5: `format_report` neither reads anything volatile nor
mutates the client, so a second call with the same flags on the client
state the first call returned yields the identical result. -/
theorem format_report_idempotent (env : Env) (c : ClientState)
    (pythonic_colnames short_usernames : Bool) :
    format_report env (format_report env c pythonic_colnames short_usernames).2
        pythonic_colnames short_usernames =
      format_report env c pythonic_colnames short_usernames := rfl

/-- Claim C7: `hours_by_project` is exactly `hours_by_team` with the
grouping label of the result renamed to `project`; the data rows, the
client state and the network trace are identical. -/
theorem hours_by_project_is_relabelled_hours_by_team (env : Env)
    (c : ClientState) (p : ReportParams) :
    hours_by_project env c p = hours_by_project_spec env c p := by
  unfold hours_by_project hours_by_project_spec
  rcases h : hours_by_team env c p with ⟨r, c2, calls⟩
  cases r <;> rfl

/-- Claim C8 (code_bug evidence): `last_report_date` is `pass` — for
every input it silently returns Python `None`, performs no network
calls and raises nothing, instead of failing with an explicit
not-implemented error. -/
theorem last_report_date_silent_none (env : Env) (c : ClientState)
    (p : ReportParams) :
    last_report_date env c p = (none, c, []) := rfl

/-- Claim C10: when the report fetch captures an empty response body,
the formatting step inside `run` mistakes it for a never-run report and
raises "Report has not yet been run."; `run` therefore never returns an
empty table from an empty body. -/
theorem run_empty_body_raises (env : Env) (c : ClientState) (url : String)
    (hurl : c.report_url = some url) (hfetch : env.fetch url = "") :
    run env c none =
      (RunOutcome.raised "Report has not yet been run.",
       { c with report_data := some "" }, [NetCall.getReport url]) := by
  unfold run runFetch
  rw [hurl]
  simp [format_report_result, hfetch]

/-- Witness for C10: the theorem applied to a client holding a composed
URL whose fetch answers with an empty body. -/
theorem run_empty_body_raises_witness :
    run env10 c10 none =
      (RunOutcome.raised "Report has not yet been run.",
       { c10 with report_data := some "" },
       [NetCall.getReport "https://api.shoutbase.com/v1/export/timerecords?teamId=T1&closedOnly=false&startsBy=0&endsBy=0&tagIds=&tagFilterType=any"]) :=
  run_empty_body_raises env10 c10
    "https://api.shoutbase.com/v1/export/timerecords?teamId=T1&closedOnly=false&startsBy=0&endsBy=0&tagIds=&tagFilterType=any"
    rfl rfl

/-- Counterexample for C6 as stated: the formatted rows span exactly
two distinct weekly buckets (18267 and 18295, four weeks apart), yet
`summary_by_week` produces five aggregate rows — `resample` also
materialises the three empty weeks in between, each summing to zero. -/
theorem summary_by_week_gap_weeks_counterexample :
    weeklyResultRows env6c c0 p6 =
      some [(18267, mkRat 3 2), (18274, 0), (18281, 0), (18288, 0),
            (18295, mkRat 5 2)] ∧
    tableBuckets env6c c0 p6 = some [18267, 18295] := by
  decide

/-- Claim C6 (amended): when the formatted rows span exactly two
*adjacent* weekly buckets `m` and `m + 7` (Monday-anchored bin labels),
`summary_by_week` produces exactly two aggregate rows, keyed by the two
bucket anchors under the index name `week_starting_date`, with the
numeric column summed per bucket.  (For non-adjacent buckets the
resample also emits one zero row per intervening empty week.) -/
theorem summary_by_week_two_adjacent_buckets (env : Env) (c : ClientState)
    (p : ReportParams) (t : Table) (c2 : ClientState) (calls : List NetCall)
    (ds : List Rat) (m : Int)
    (hrun : run env c (some p) = (RunOutcome.table t, c2, calls))
    (hds : mapMOpt (fun r => parseRat r.duration_hours) t.rows = some ds)
    (hall : ∀ q ∈ (t.rows.map (fun r => r.start_time.day)).zip ds,
      mondayOnOrAfter q.1 = m ∨ mondayOnOrAfter q.1 = m + 7)
    (hm : ∃ q ∈ (t.rows.map (fun r => r.start_time.day)).zip ds,
      mondayOnOrAfter q.1 = m)
    (hm7 : ∃ q ∈ (t.rows.map (fun r => r.start_time.day)).zip ds,
      mondayOnOrAfter q.1 = m + 7) :
    summary_by_week env c p =
      (PyResult.ret ⟨"week_starting_date",
        [(m, bucketTotal ((t.rows.map (fun r => r.start_time.day)).zip ds) m),
         (m + 7,
          bucketTotal ((t.rows.map (fun r => r.start_time.day)).zip ds) (m + 7))]⟩,
       c2, calls) := by
  unfold summary_by_week
  rw [hrun]
  dsimp only
  unfold resampleWeeklySum
  rw [hds]
  dsimp only
  rw [resampleWeekSum_two ((t.rows.map (fun r => r.start_time.day)).zip ds) m
    hall hm hm7]

set_option maxRecDepth 8000

/-- Witness for C6: the amended theorem applied to a concrete run whose
two rows fall into the adjacent buckets 18267 and 18274. -/
theorem summary_by_week_two_adjacent_buckets_witness :
    summary_by_week env6w c0 p6 =
      (PyResult.ret ⟨"week_starting_date",
        [(18267,
          bucketTotal ((t6w.rows.map (fun r => r.start_time.day)).zip ds6w) 18267),
         (18267 + 7,
          bucketTotal ((t6w.rows.map (fun r => r.start_time.day)).zip ds6w)
            (18267 + 7))]⟩,
       c6w2, calls6w) :=
  summary_by_week_two_adjacent_buckets env6w c0 p6 t6w c6w2 calls6w ds6w 18267
    (by decide) (by decide) (by decide) (by decide) (by decide)

/-- Counterexample for C9 as stated: running a report with one tag
issues the tag-lookup request *before* the team-lookup request — the
claimed order (team first, every team lookup preceding every tag
lookup) is violated on the very first pair of calls. -/
theorem run_resolves_tags_before_team_counterexample :
    (run env9c c0 (some p9c)).2.2 =
      [NetCall.getTagLookup "https://api.shoutbase.com/v1/tags?name=tagX",
       NetCall.getTeamLookup "https://api.shoutbase.com/v1/teams?name=teamA",
       NetCall.getReport
         "https://api.shoutbase.com/v1/export/timerecords?teamId=T1&closedOnly=false&startsBy=0&endsBy=0&tagIds=G1&tagFilterType=any"] ∧
    ¬ teamPrecedesTags (run env9c c0 (some p9c)).2.2 := by
  constructor
  · decide
  · decide

/-- Claim C9 (amended): on a successful run with parameters, the
network calls are issued strictly in the sequence: each tag name is
resolved first, in input order, then the team name, then the report is
fetched — every tag-lookup request precedes the team-lookup request. -/
theorem run_call_order (env : Env) (c : ClientState) (p : ReportParams)
    (tid : String) (trest : List String) (tft : String) (ss ee : Int)
    (htags : ∀ n ∈ p.tag_list, (env.tagLookup (tagLookupUrl env n)).isSome = true)
    (hteam : env.teamLookup (teamLookupUrl env p.team_name) = some (tid :: trest))
    (hs : env.mktime p.start_date = some ss)
    (he : env.mktime p.end_date = some ee)
    (htft : p.tag_filter_type = some tft) :
    ∃ url, (run env c (some p)).2.2 =
      p.tag_list.map (fun n => NetCall.getTagLookup (tagLookupUrl env n)) ++
      [NetCall.getTeamLookup (teamLookupUrl env p.team_name),
       NetCall.getReport url] := by
  rcases resolveTags_ok env p.tag_list htags with ⟨ids, hids⟩
  refine ⟨reportUrl tid (toString (ss * 1000)) (toString (ee * 1000))
    (joinWith "," ids) tft, ?_⟩
  unfold run
  dsimp only
  unfold compose_report_url
  rw [hids]
  dsimp only
  unfold teamid_from_name
  rw [hteam]
  dsimp only
  unfold to_epoch
  rw [hs]
  dsimp only
  rw [he]
  dsimp only
  rw [htft]
  dsimp only
  unfold runFetch
  dsimp only
  simp

/-- Witness for C9: the amended theorem applied to a concrete run with
two tag names. -/
theorem run_call_order_witness :
    ∃ url, (run env9w c0 (some p9w)).2.2 =
      p9w.tag_list.map (fun n => NetCall.getTagLookup (tagLookupUrl env9w n)) ++
      [NetCall.getTeamLookup (teamLookupUrl env9w p9w.team_name),
       NetCall.getReport url] :=
  run_call_order env9w c0 p9w "T1" [] "any" 0 0 (by decide) (by decide)
    (by decide) (by decide) (by decide)

end Shoutbase
